import Mathlib

/-
Shallow embedding of the phidata function-calling subsystem
(src/phi/tools/function.py) and the group coordinator
(src/phi/assistant/group/group.py).

Python dictionaries are modelled as insertion-ordered association lists,
JSON documents as an inductive `JsonValue`, Python runtime values appearing
as tool-call arguments as `PyValue`, and exceptions as the `Except` monad:
a Python callable that may raise becomes a Lean function into
`Except String α`, where the error string is the str() form of the raised
exception.  Mutation of a pydantic model by a method becomes explicit state
passing (the method returns the updated record).
-/

/-- A JSON document, used for JSON-Schema parameter descriptions. -/
inductive JsonValue where
  | null : JsonValue
  | bool (b : Bool) : JsonValue
  | num (n : Int) : JsonValue
  | str (s : String) : JsonValue
  | arr (xs : List JsonValue) : JsonValue
  | obj (kvs : List (String × JsonValue)) : JsonValue

/-- A JSON object / Python dict with string keys, in insertion order. -/
abbrev JsonObj := List (String × JsonValue)

mutual

/-- Model of the Python stdlib json.dumps (external to this repository).
Whitespace and character escaping of the stdlib serializer are not modelled;
no property below depends on them, only on the serialized structure. -/
def json_dumps : JsonValue → String
  | .null => "null"
  | .bool true => "true"
  | .bool false => "false"
  | .num n => toString n
  | .str s => "\"" ++ s ++ "\""
  | .arr xs => "[" ++ json_dumps_items xs ++ "]"
  | .obj kvs => "\x7b" ++ json_dumps_fields kvs ++ "\x7d"

/-- Serializes the elements of a JSON array, comma separated. -/
def json_dumps_items : List JsonValue → String
  | [] => ""
  | [x] => json_dumps x
  | x :: xs => json_dumps x ++ ", " ++ json_dumps_items xs

/-- Serializes the fields of a JSON object, comma separated. -/
def json_dumps_fields : List (String × JsonValue) → String
  | [] => ""
  | [(k, v)] => "\"" ++ k ++ "\": " ++ json_dumps v
  | (k, v) :: kvs => "\"" ++ k ++ "\": " ++ json_dumps v ++ ", " ++ json_dumps_fields kvs

end

/-- A Python runtime value, as far as tool-call arguments and results need:
strings, integers, booleans and None.  (The argument dictionaries of the
source are typed Dict[str, Any]; this is the fragment of Any the
specification exercises.) -/
inductive PyValue where
  | pynone : PyValue
  | bool (b : Bool) : PyValue
  | int (n : Int) : PyValue
  | str (s : String) : PyValue
deriving DecidableEq, Repr

/-- Model of the Python str() conversion on a `PyValue` (as used by the
f-string interpolation in FunctionCall.get_call_str). -/
def pyStr : PyValue → String
  | .pynone => "None"
  | .bool true => "True"
  | .bool false => "False"
  | .int n => toString n
  | .str s => s

/-- A Python argument dictionary: string keys to values, insertion ordered. -/
abbrev Args := List (String × PyValue)

/-- Model of Python str.replace for a one-character pattern and replacement:
every occurrence of the pattern character is replaced.  (The only use in the
source is member.name.replace(" ", "_").) -/
def py_replace (s : String) (pat rep : Char) : String :=
  String.mk (s.data.map (fun c => if c = pat then rep else c))

/-- Model of Python str.lower on ASCII text. -/
def py_lower (s : String) : String :=
  String.mk (s.data.map Char.toLower)

/-- A Python type object, as far as the source needs one: its __name__.
(Function.get_definition_for_prompt reads type_hints.get("return").__name__.) -/
structure PyType where
  name : String
deriving DecidableEq, Repr

/-- The bound entrypoint of a tool descriptor: the callable produced by
pydantic validate_call.  `call` receives the stored argument dictionary
(`Option.none` models calling with no arguments at all, as opposed to an
empty dictionary) and either returns a value or raises; `hintsResult` is
the outcome of typing.get_type_hints on the callable (functools.wraps makes
the wrapper carry the wrapped annotations), which itself may raise. -/
structure Entrypoint where
  call : Option Args → Except String PyValue
  hintsResult : Except String (List (String × PyType)) := .ok []

/-- The default parameter schema of the source:
the dict literal with "type": "object" and empty "properties". -/
def empty_parameters : JsonObj :=
  [("type", .str "object"), ("properties", .obj [])]

/-- A Python callable handed to Function.from_callable / Function.build:
its __name__, its inspect.getdoc, the outcome of typing.get_type_hints on
it, the outcome of get_json_schema on those hints (phi/utils/json_schema.py
is outside src/, so its result is part of the callable model), and its call
behaviour. -/
structure PyCallable where
  name : String
  doc : Option String := Option.none
  hintsResult : Except String (List (String × PyType)) := .ok []
  jsonSchemaResult : Except String JsonObj := .ok empty_parameters
  call : Option Args → Except String PyValue := fun _ => .ok .pynone

/-- Model of pydantic validate_call (external to this repository): wraps the
callable as an entrypoint whose argument validation happens inside `call`
(a validation failure is one more way `call` can raise), and which carries
the type hints of the wrapped callable. -/
def validate_call (c : PyCallable) : Entrypoint :=
  { call := c.call, hintsResult := c.hintsResult }

/-- ToolDescriptor: the Function pydantic model of src/phi/tools/function.py. -/
structure Function where
  name : String
  description : Option String := Option.none
  parameters : JsonObj := empty_parameters
  entrypoint : Option Entrypoint := Option.none
  break_after_run : Bool := false
  sanitize_arguments : Bool := true

/-- Function.from_callable: derives parameters from the type hints of the
callable via get_json_schema inside a try/except — on any exception the
failure is logged and the default empty schema is kept — then builds the
descriptor with the validate_call wrapped entrypoint. -/
def Function.from_callable (c : PyCallable) : Function :=
  let parameters : JsonObj :=
    match c.hintsResult with
    | .error _ => empty_parameters
    | .ok _ =>
      match c.jsonSchemaResult with
      | .error _ => empty_parameters
      | .ok schema => schema
  { name := c.name
    description := c.doc
    parameters := parameters
    entrypoint := some (validate_call c) }

/-- Function.build: identical to Function.from_callable except that
break_after_run is a settable argument (defaulting to false). -/
def Function.build (c : PyCallable) (break_after_run : Bool := false) : Function :=
  let parameters : JsonObj :=
    match c.hintsResult with
    | .error _ => empty_parameters
    | .ok _ =>
      match c.jsonSchemaResult with
      | .error _ => empty_parameters
      | .ok schema => schema
  { name := c.name
    description := c.doc
    parameters := parameters
    entrypoint := some (validate_call c)
    break_after_run := break_after_run }

/-- The str() of the AttributeError raised by the expression
type_hints.get("return", "void").__name__ when the "return" key is absent:
the default "void" is a str instance and str has no attribute __name__. -/
def attr_err_void : String :=
  "AttributeError: \x27str\x27 object has no attribute \x27__name__\x27"

/-- Function.get_definition_for_prompt: returns None when there is no
entrypoint; otherwise builds the function_info dict
(name, description, arguments = parameters.get("properties", empty dict),
returns = type_hints.get("return", "void").__name__) and json.dumps it.
Both get_type_hints and the __name__ access can raise, so the result lives
in Except. -/
def Function.get_definition_for_prompt (f : Function) : Except String (Option String) :=
  match f.entrypoint with
  | Option.none => .ok Option.none
  | some ep =>
    match ep.hintsResult with
    | .error e => .error e
    | .ok type_hints =>
      match type_hints.lookup "return" with
      | some t =>
        .ok (some (json_dumps (.obj
          [("name", .str f.name),
           ("description", match f.description with
             | some d => .str d
             | Option.none => .null),
           ("arguments", (f.parameters.lookup "properties").getD (.obj [])),
           ("returns", .str t.name)])))
      | Option.none => .error attr_err_void

/-- Invocation: the FunctionCall pydantic model of src/phi/tools/function.py. -/
structure FunctionCall where
  function : Function
  arguments : Option Args := Option.none
  result : Option PyValue := Option.none
  call_id : Option String := Option.none
  error : Option String := Option.none

/-- The per-value display trimming of FunctionCall.get_call_str: a string
value of length greater than 50 is shown as "...", every other value is
shown unchanged. -/
def trim_value : PyValue → PyValue
  | .str s => if s.length > 50 then .str "..." else .str s
  | v => v

/-- FunctionCall.get_call_str: renders name(k=v, ...) from a trimmed copy
of the argument dictionary (the stored arguments are not touched: the
rendering is computed from a fresh trimmed_arguments dict). -/
def FunctionCall.get_call_str (fc : FunctionCall) : String :=
  match fc.arguments with
  | Option.none => fc.function.name ++ "()"
  | some args =>
    let trimmed_arguments := args.map (fun kv => (kv.1, trim_value kv.2))
    fc.function.name ++ "(" ++
      String.intercalate ", "
        (trimmed_arguments.map (fun kv => kv.1 ++ "=" ++ pyStr kv.2)) ++ ")"

/-- FunctionCall.execute: returns the success flag together with the
updated invocation (Python mutates self; the embedding passes state
explicitly).  No entrypoint: immediate failure, nothing changed.  Otherwise
the entrypoint is called with no arguments when the arguments dict is
absent, else with the stored arguments; success stores the return value in
result, an exception is caught and its str() stored in result.  Note the
error field is never written. -/
def FunctionCall.execute (fc : FunctionCall) : Bool × FunctionCall :=
  match fc.function.entrypoint with
  | Option.none => (false, fc)
  | some ep =>
    match fc.arguments with
    | Option.none =>
      match ep.call Option.none with
      | .ok v => (true, { fc with result := some v })
      | .error e => (false, { fc with result := some (.str e) })
    | some args =>
      match ep.call (some args) with
      | .ok v => (true, { fc with result := some v })
      | .error e => (false, { fc with result := some (.str e) })

/-- An assistant, the external agent capability interface the group
coordinator drives: identification fields, construction fields
(system_prompt, tools), and run behaviour.  `streamRun` models
run(message, stream=True) as the list of chunks the stream yields (typed
Any in the source, hence `PyValue`); `singleRun` models
run(message, stream=False), which returns the full response text or
raises.  The behaviour of an Assistant is supplied by the external LLM
runtime; a freshly constructed one defaults to an empty response. -/
structure Assistant where
  name : Option String := Option.none
  role : Option String := Option.none
  system_prompt : Option String := Option.none
  tools : Option (List Function) := Option.none
  streamable : Bool := true
  streamRun : Option String → List PyValue := fun _ => []
  singleRun : Option String → Except String String := fun _ => .ok ""

/-- GroupCoordinator: the AssistantGroup pydantic model of
src/phi/assistant/group/group.py. -/
structure AssistantGroup where
  name : Option String := Option.none
  lead : Option Assistant := Option.none
  members : Option (List Assistant) := Option.none
  reviewer : Option Assistant := Option.none
  run_id : Option String := Option.none
  run_name : Option String := Option.none
  markdown : Bool := false
  debug_mode : Bool := false
  monitoring : Bool := false

/-- AssistantGroup.streamable: the property is the constant True. -/
def AssistantGroup.streamable (_g : AssistantGroup) : Bool := true

/-- Modelled from the spec: get_tool_name (phi/utils/tools.py, not under
src/) returns the display name of a tool, here the descriptor name. -/
def get_tool_name (t : Function) : Option String :=
  some t.name

/-- Modelled from the spec: the schema get_json_schema
(phi/utils/json_schema.py, not under src/) derives for the delegation
callable, whose single declared parameter is task_description: string
(required). -/
def delegation_parameters : JsonObj :=
  [("type", .str "object"),
   ("properties", .obj [("task_description", .obj [("type", .str "string")])]),
   ("required", .arr [.str "task_description"])]

/-- The delegation tool description template.  The textwrap.dedent call in
the source is the identity here: the first template line has no leading
whitespace, so the common indent dedent strips is empty. -/
def delegation_description (member_name : String) : String :=
  "Use this function to delegate a task to " ++ member_name ++ "\n\n" ++
  "        Args:\n" ++
  "            task_description (str): A clear and concise description of the task the assistant should achieve.\n" ++
  "        Returns:\n" ++
  "            str: The result of the delegated task.\n" ++
  "        "

/-- AssistantGroup.member_delegation_function: builds the closure
_delegate_task_to_member (which runs the member non-streaming on the task
description), derives a descriptor from it via Function.from_callable, and
then overwrites its name with
delegate_task_to_<name with spaces replaced by underscores, lowercased>
(or member_<index> when member.name is falsy in the Python sense, i.e.
absent or the empty string) and its description with the template. -/
def AssistantGroup.member_delegation_function
    (_g : AssistantGroup) (member : Assistant) (index : Nat) : Function :=
  let _delegate_task_to_member : PyCallable :=
    { name := "_delegate_task_to_member"
      doc := Option.none
      hintsResult := .ok [("task_description", ⟨"str"⟩), ("return", ⟨"str"⟩)]
      jsonSchemaResult := .ok delegation_parameters
      call := fun args =>
        match args with
        | some [("task_description", .str task_description)] =>
          match member.singleRun (some task_description) with
          | .ok r => .ok (.str r)
          | .error e => .error e
        | _ => .error "TypeError: _delegate_task_to_member invalid arguments" }
  let member_name : String :=
    match member.name with
    | some n =>
      if n = "" then "member_" ++ toString index
      else py_lower (py_replace n ' ' '_')
    | Option.none => "member_" ++ toString index
  let delegation_function := Function.from_callable _delegate_task_to_member
  { delegation_function with
      name := "delegate_task_to_" ++ member_name
      description := some (delegation_description member_name) }

/-- The block one member contributes to the implicit leader system prompt: index line,
then Name/Role lines when present and non-empty (the source tests Python
truthiness), then the names of the tools of that member
(a tool whose resolved name is empty or None is skipped, and the line is
omitted when no names remain). -/
def member_summary (member_index : Nat) (member : Assistant) : String :=
  "\nAssistant " ++ toString (member_index + 1) ++ ":\n" ++
  (match member.name with
   | some n => if n = "" then "" else "Name: " ++ n ++ "\n"
   | Option.none => "") ++
  (match member.role with
   | some r => if r = "" then "" else "Role: " ++ r ++ "\n"
   | Option.none => "") ++
  (match member.tools with
   | some ts =>
     let _tools := ts.filterMap (fun t =>
       match get_tool_name t with
       | some n => if n = "" then Option.none else some n
       | Option.none => Option.none)
     if 0 < _tools.length then
       "Available tools: " ++ String.intercalate ", " _tools ++ "\n"
     else ""
   | Option.none => "")

/-- AssistantGroup.leader: returns the explicit lead when configured, else
synthesizes a fresh implicit leader: one delegation tool per member, in
member order, and the system prompt assembled from the team name (when
truthy, i.e. present and non-empty), the member summaries, and — when no reviewer is configured — the standing
instruction to review and re-run.  The run behaviour of the synthesized
Assistant is supplied by the external LLM runtime (structure defaults). -/
def AssistantGroup.leader (g : AssistantGroup) : Assistant :=
  match g.lead with
  | some l => l
  | Option.none =>
    let ms : List Assistant := match g.members with
      | some ms => ms
      | Option.none => []
    let has_members : Bool := 0 < ms.length
    let p1 : String :=
      if has_members then
        "You are the leader of a group of AI Assistants " ++
          (match g.name with
           | some n => if n = "" then "" else "called \x27" ++ n ++ "\x27"
           | Option.none => "")
      else "You are an AI Assistant"
    let p2 : String := p1 ++
      ". Your goal is to respond to the users message in the best way possible." ++
      " This is an important task and must be done correctly.\n\n"
    let p3 : String :=
      if has_members then
        p2 ++
        "Given a user message you can respond directly or delegate tasks to the following assistants depending on their role and the tools available to them. " ++
        "\n\n<assistants>" ++
        String.join (ms.enum.map (fun im => member_summary im.1 im.2)) ++
        "</assistants>\n"
      else p2
    let p4 : String :=
      match g.reviewer with
      | Option.none =>
        p3 ++ "You must always review the responses from the assistants and re-run tasks if the result is not satisfactory."
      | some _ => p3
    let _delegation_functions : List Function :=
      ms.enum.map (fun im => g.member_delegation_function im.2 im.1)
    { system_prompt := some p4
      tools := some _delegation_functions }

/-- The expression `chunk if isinstance(chunk, str) else ""` of the
streaming loop: a non-string chunk contributes the empty string, both to
the yielded sequence and to the run_output transcript. -/
def chunk_text : PyValue → String
  | .str s => s
  | _ => ""

/-- AssistantGroup._run: the generator, modelled as the list of the strings
it yields.  Streaming path (stream requested and the leader streamable):
every chunk is forwarded via chunk_text, then the trailing separator chunk.
Otherwise the leader is run single-shot inside try/except: on success the
response (followed by the separator) is either yielded directly (stream)
or accumulated into run_output; on an exception the failure is logged and
swallowed, leaving run_output as accumulated before the exception, i.e.
the initial "".  After the try/except, the non-streaming caller is yielded
the accumulated run_output. -/
def AssistantGroup.runGen
    (g : AssistantGroup) (message : Option String) (stream : Bool) : List String :=
  let leader := g.leader
  if stream && leader.streamable then
    ((leader.streamRun message).map chunk_text) ++ ["\n\n"]
  else
    match leader.singleRun message with
    | .ok leader_response =>
      if stream then [leader_response, "\n\n"]
      else [leader_response ++ "\n\n"]
    | .error _e =>
      if stream then [] else [""]

/-- What AssistantGroup.run hands back: the lazy chunk sequence (streaming)
or one materialized response (non-streaming next(resp)). -/
inductive RunResult where
  | chunks (xs : List String) : RunResult
  | response (s : String) : RunResult
deriving DecidableEq, Repr

/-- AssistantGroup.run: streaming callers get the chunk iterator itself;
otherwise the single-shot generator is run and next() takes its first
yielded value (next would raise StopIteration on an empty generator, hence
the Except). -/
def AssistantGroup.run
    (g : AssistantGroup) (message : Option String) (stream : Bool) :
    Except String RunResult :=
  if stream && g.streamable then
    .ok (.chunks (g.runGen message true))
  else
    match g.runGen message false with
    | x :: _ => .ok (.response x)
    | [] => .error "StopIteration"

/-
Concrete instances used by witnesses and counterexamples.
-/

/-- An entrypoint whose call always raises ValueError("x"): str() form "x". -/
def raising_entrypoint : Entrypoint :=
  { call := fun _ => .error "x" }

/-- An invocation of a descriptor whose entrypoint raises. -/
def fc_raising : FunctionCall :=
  { function := { name := "f", entrypoint := some raising_entrypoint }
    arguments := some [("a", .int 1)] }

/-- An invocation of a purely descriptive descriptor (no entrypoint). -/
def fc_no_entrypoint : FunctionCall :=
  { function := { name := "f" } }

/-- An entrypoint whose callable declares no return type: get_type_hints
yields a dict without the "return" key. -/
def no_return_entrypoint : Entrypoint :=
  { call := fun _ => .ok (.str "ok")
    hintsResult := .ok [("x", ⟨"int"⟩)] }

/-- A descriptor whose entrypoint declares no return type. -/
def f_no_return : Function :=
  { name := "f", entrypoint := some no_return_entrypoint }

/-- A 51-character string ("y" * 51). -/
def y51 : String := String.mk (List.replicate 51 'y')

/-- A 50-character string ("y" * 50). -/
def y50 : String := String.mk (List.replicate 50 'y')

/-- An invocation carrying one over-long and one exactly-50-character
string argument. -/
def fc_render : FunctionCall :=
  { function := { name := "f" }
    arguments := some [("a", .str y51), ("b", .str y50)] }

/-- A leader whose stream yields "Hel" then "lo" and whose single-shot run
returns "Hello". -/
def leader_hello : Assistant :=
  { streamRun := fun _ => [.str "Hel", .str "lo"]
    singleRun := fun _ => .ok "Hello" }

/-- A group led by leader_hello. -/
def group_hello : AssistantGroup :=
  { lead := some leader_hello }

/-- A leader whose single-shot run raises. -/
def leader_raising : Assistant :=
  { singleRun := fun _ => .error "boom" }

/-- A group led by leader_raising. -/
def group_raising : AssistantGroup :=
  { lead := some leader_raising }

/-- A leader whose stream yields one string chunk and one non-string chunk. -/
def leader_mixed : Assistant :=
  { streamRun := fun _ => [.str "a", .int 5] }

/-- A group led by leader_mixed. -/
def group_mixed : AssistantGroup :=
  { lead := some leader_mixed }

/-- A callable whose get_type_hints raises (unintrospectable). -/
def bad_hints_callable : PyCallable :=
  { name := "mystery"
    doc := some "no annotations here"
    hintsResult := .error "NameError: name undefined_type is not defined"
    jsonSchemaResult := .ok empty_parameters
    call := fun _ => .ok .pynone }

/-
Theorems.
-/

/-- Helper: the rendered form of a trimmed value, phrased on the original
value: an over-50-character string renders as "...", anything else renders
unchanged via pyStr. -/
theorem pyStr_trim (v : PyValue) :
    pyStr (trim_value v) =
      match v with
      | .str s => if s.length > 50 then "..." else s
      | v => pyStr v := by
  cases v with
  | str s =>
    simp only [trim_value]
    by_cases h : s.length > 50 <;> simp [h, pyStr]
  | pynone => rfl
  | bool b => rfl
  | int n => rfl

/-- Claim C1 (counterexample): at an invocation whose entrypoint raises
ValueError("x"), execute does return failure with result "x", but the
error field stays None — refuting the part of the claim that says execute
"sets error to a non-empty string". -/
theorem C1_counterexample :
    fc_raising.execute.1 = false ∧
    fc_raising.execute.2.result = some (.str "x") ∧
    fc_raising.execute.2.error = Option.none :=
  ⟨rfl, rfl, rfl⟩

/-- Claim C1 (amended): if the entrypoint of an invocation raises on the
stored arguments (or on the no-argument call when the arguments dict is
absent), execute catches the exception, sets result to the string form
of the exception, returns failure and never propagates the exception; the error
field is left unchanged (it is never written by execute). -/
theorem C1_execute_catches (fc : FunctionCall) (ep : Entrypoint) (e : String)
    (hep : fc.function.entrypoint = some ep)
    (hraise : ep.call fc.arguments = .error e) :
    fc.execute.1 = false ∧
    fc.execute.2.result = some (.str e) ∧
    fc.execute.2.error = fc.error := by
  cases hargs : fc.arguments with
  | none =>
    rw [hargs] at hraise
    simp [FunctionCall.execute, hep, hargs, hraise]
  | some args =>
    rw [hargs] at hraise
    simp [FunctionCall.execute, hep, hargs, hraise]

/-- Witness for C1_execute_catches at the concrete raising invocation. -/
theorem C1_execute_catches_witness :
    fc_raising.execute.1 = false ∧
    fc_raising.execute.2.result = some (.str "x") ∧
    fc_raising.execute.2.error = fc_raising.error :=
  C1_execute_catches fc_raising raising_entrypoint "x" rfl rfl

/-- Claim C4: executing an invocation whose descriptor has no entrypoint
returns failure immediately and leaves the whole invocation — in
particular result and error — exactly as it was. -/
theorem C4_no_entrypoint (fc : FunctionCall)
    (h : fc.function.entrypoint = Option.none) :
    fc.execute = (false, fc) := by
  simp [FunctionCall.execute, h]

/-- Witness for C4_no_entrypoint at a concrete descriptive-only invocation. -/
theorem C4_no_entrypoint_witness :
    fc_no_entrypoint.execute = (false, fc_no_entrypoint) :=
  C4_no_entrypoint fc_no_entrypoint rfl

/-- Claim C5 (code bug, failing input): on a descriptor whose entrypoint
declares no return type, get_definition_for_prompt raises AttributeError —
the expression type_hints.get("return", "void").__name__ takes __name__ of
the str default "void" — instead of reporting "void" as the claim and the
default value clearly intend. -/
theorem C5_void_attribute_error :
    Function.get_definition_for_prompt f_no_return = .error attr_err_void :=
  rfl

/-- Helper: rendering the trimmed copy of an argument dict is rendering
the original dict with the per-entry display rule applied. -/
theorem map_trim_render (args : Args) :
    (args.map (fun kv => (kv.1, trim_value kv.2))).map
        (fun kv => kv.1 ++ "=" ++ pyStr kv.2)
      = args.map (fun kv => kv.1 ++ "=" ++
          (match kv.2 with
           | .str s => if s.length > 50 then "..." else s
           | v => pyStr v)) := by
  induction args with
  | nil => rfl
  | cons kv rest ih =>
    simp only [List.map_cons, ih]
    rw [pyStr_trim]

/-- Claim C6: for every invocation with an arguments dict, get_call_str
renders name(k=v, ...) where a string value longer than 50 characters is
displayed as "..." and every other value — in particular a string of
length 50 or less — is displayed unchanged.  The rendering is computed
from a fresh trimmed copy; the embedding is pure, so the stored arguments
are untouched by construction (fc itself is not part of the output). -/
theorem C6_render_call (fc : FunctionCall) (args : Args)
    (hargs : fc.arguments = some args) :
    fc.get_call_str =
      fc.function.name ++ "(" ++
        String.intercalate ", "
          (args.map (fun kv => kv.1 ++ "=" ++
            (match kv.2 with
             | .str s => if s.length > 50 then "..." else s
             | v => pyStr v))) ++ ")" := by
  simp only [FunctionCall.get_call_str, hargs]
  rw [map_trim_render]

/-- Witness for C6_render_call: a concrete invocation with a 51-character
and a 50-character string argument, trimmed and kept respectively. -/
theorem C6_render_call_witness :
    fc_render.get_call_str =
      "f" ++ "(" ++
        String.intercalate ", "
          ([("a", PyValue.str y51), ("b", PyValue.str y50)].map (fun kv => kv.1 ++ "=" ++
            (match kv.2 with
             | .str s => if s.length > 50 then "..." else s
             | v => pyStr v))) ++ ")" ∧
    fc_render.get_call_str = "f(a=..., b=" ++ y50 ++ ")" :=
  ⟨C6_render_call fc_render [("a", PyValue.str y51), ("b", PyValue.str y50)] rfl,
   by decide⟩

/-- Claim C7 (counterexample): a member whose name is the empty string
does have a name, yet the factory does not produce the slug-derived
descriptor name the claim predicts for a named member
(delegate_task_to_ followed by the slug of ""): the source tests Python
truthiness of member.name, so the empty name falls back to the
index-derived delegate_task_to_member_2. -/
theorem C7_counterexample :
    (({} : AssistantGroup).member_delegation_function { name := some "" } 2).name
        = "delegate_task_to_member_2" ∧
    (({} : AssistantGroup).member_delegation_function { name := some "" } 2).name
        ≠ "delegate_task_to_" ++ py_lower (py_replace "" ' ' '_') :=
  ⟨by decide, by decide⟩

/-- Claim C7 (amended): the delegation descriptor is named
delegate_task_to_<member name with spaces replaced by underscores,
lowercased> when the member has a non-empty name and
delegate_task_to_member_<i> when its name is absent or empty (the source
tests Python truthiness of member.name); in particular "Research Bot" at
index 2 gives delegate_task_to_research_bot and a nameless member at
index 2 gives delegate_task_to_member_2. -/
theorem C7_delegation_names :
    (∀ (g : AssistantGroup) (member : Assistant) (i : Nat),
        (g.member_delegation_function member i).name =
          "delegate_task_to_" ++
            (match member.name with
             | some n =>
               if n = "" then "member_" ++ toString i
               else py_lower (py_replace n ' ' '_')
             | Option.none => "member_" ++ toString i)) ∧
    (({} : AssistantGroup).member_delegation_function
        { name := some "Research Bot" } 2).name = "delegate_task_to_research_bot" ∧
    (({} : AssistantGroup).member_delegation_function {} 2).name
      = "delegate_task_to_member_2" := by
  refine ⟨fun g member i => ?_, by decide, by decide⟩
  cases h : member.name with
  | none => simp [AssistantGroup.member_delegation_function, h]
  | some n =>
    by_cases hn : n = "" <;>
      simp [AssistantGroup.member_delegation_function, h, hn]

/-- Claim C8: from_callable and build agree on every callable when
break_after_run is left at its default: same name, description, parameter
schema, entrypoint wrapping and break_after_run value — the two
construction entrypoints differ only in whether break_after_run is
settable. -/
theorem C8_from_callable_eq_build (c : PyCallable) :
    Function.from_callable c = Function.build c :=
  rfl

/-- Claim C9: descriptor construction never fails because of schema
derivation: when get_type_hints or get_json_schema raises, from_callable
still builds the descriptor — name, description and wrapped entrypoint as
usual — with the empty parameter schema and no required set. -/
theorem C9_schema_soft_fail (c : PyCallable) (e : String)
    (h : c.hintsResult = .error e ∨ c.jsonSchemaResult = .error e) :
    (Function.from_callable c).parameters = empty_parameters ∧
    ((Function.from_callable c).parameters.lookup "required" = Option.none) ∧
    (Function.from_callable c).name = c.name ∧
    (Function.from_callable c).description = c.doc ∧
    (Function.from_callable c).entrypoint = some (validate_call c) := by
  have hparams : (Function.from_callable c).parameters = empty_parameters := by
    rcases h with h | h
    · simp [Function.from_callable, h]
    · cases hh : c.hintsResult <;>
        simp [Function.from_callable, h, hh]
  refine ⟨hparams, ?_, rfl, rfl, rfl⟩
  rw [hparams]
  rfl

/-- Witness for C9_schema_soft_fail at a concrete callable whose
get_type_hints raises. -/
theorem C9_schema_soft_fail_witness :
    (Function.from_callable bad_hints_callable).parameters = empty_parameters ∧
    ((Function.from_callable bad_hints_callable).parameters.lookup "required"
      = Option.none) ∧
    (Function.from_callable bad_hints_callable).name = bad_hints_callable.name ∧
    (Function.from_callable bad_hints_callable).description = bad_hints_callable.doc ∧
    (Function.from_callable bad_hints_callable).entrypoint
      = some (validate_call bad_hints_callable) :=
  C9_schema_soft_fail bad_hints_callable
    "NameError: name undefined_type is not defined" (Or.inl rfl)

/-- Claim C2: on a group whose leader streams the chunks "Hel" then "lo"
(and whose full single-shot response is "Hello"), the streaming run yields
exactly "Hel", "lo" and then the one trailing separator chunk, in that
order and nothing else, while the non-streaming run() returns the single
materialized string "Hello\n\n". -/
theorem C2_stream_and_single (g : AssistantGroup) (ldr : Assistant)
    (message : Option String)
    (hlead : g.lead = some ldr)
    (hstreamable : ldr.streamable = true)
    (hchunks : ldr.streamRun message = [.str "Hel", .str "lo"])
    (hsingle : ldr.singleRun message = .ok "Hello") :
    g.run message true = .ok (.chunks ["Hel", "lo", "\n\n"]) ∧
    g.run message false = .ok (.response "Hello\n\n") := by
  constructor <;>
    simp [AssistantGroup.run, AssistantGroup.runGen, AssistantGroup.leader,
      AssistantGroup.streamable, hlead, hstreamable, hchunks, hsingle, chunk_text]

/-- Witness for C2_stream_and_single at the concrete "Hel"/"lo" group. -/
theorem C2_stream_and_single_witness :
    group_hello.run Option.none true = .ok (.chunks ["Hel", "lo", "\n\n"]) ∧
    group_hello.run Option.none false = .ok (.response "Hello\n\n") :=
  C2_stream_and_single group_hello leader_hello Option.none rfl rfl rfl rfl

/-- Claim C3: on the single-shot (non-streaming) path, an exception raised
by the leader run is caught and never reaches the caller: run() reports
no exception and returns the transcript accumulated before the exception —
run_output is only appended after the leader call returns, so here that
accumulated transcript is the empty string. -/
theorem C3_single_shot_swallows (g : AssistantGroup) (ldr : Assistant)
    (message : Option String) (e : String)
    (hlead : g.lead = some ldr)
    (hraise : ldr.singleRun message = .error e) :
    g.run message false = .ok (.response "") := by
  simp [AssistantGroup.run, AssistantGroup.runGen, AssistantGroup.leader,
    AssistantGroup.streamable, hlead, hraise]

/-- Witness for C3_single_shot_swallows at the concrete raising leader. -/
theorem C3_single_shot_swallows_witness :
    group_raising.run Option.none false = .ok (.response "") :=
  C3_single_shot_swallows group_raising leader_raising Option.none "boom" rfl rfl

/-- Claim C10: on the streaming path every chunk of the leader stream
produces exactly one yielded chunk — chunk_text of it, which is the empty
string for a non-string chunk (so the same empty string is what the
transcript accumulates for it, i.e. nothing) — followed by the one
trailing separator; hence the number of yields before the separator equals
the number of chunks the leader produced. -/
theorem C10_nonstring_chunks (g : AssistantGroup) (ldr : Assistant)
    (message : Option String)
    (hlead : g.lead = some ldr)
    (hstreamable : ldr.streamable = true) :
    g.runGen message true = (ldr.streamRun message).map chunk_text ++ ["\n\n"] ∧
    (g.runGen message true).length = (ldr.streamRun message).length + 1 ∧
    (∀ c ∈ ldr.streamRun message, (∀ s, c ≠ .str s) → chunk_text c = "") := by
  have hgen : g.runGen message true
      = (ldr.streamRun message).map chunk_text ++ ["\n\n"] := by
    simp [AssistantGroup.runGen, AssistantGroup.leader, hlead, hstreamable]
  refine ⟨hgen, ?_, ?_⟩
  · rw [hgen]
    simp
  · intro c _ hc
    cases c with
    | str s => exact absurd rfl (hc s)
    | pynone => rfl
    | bool b => rfl
    | int n => rfl

/-- Witness for C10_nonstring_chunks at the concrete mixed-chunk group:
the stream ["a", 5] yields ["a", "", "\n\n"]. -/
theorem C10_nonstring_chunks_witness :
    (group_mixed.runGen Option.none true
        = (leader_mixed.streamRun Option.none).map chunk_text ++ ["\n\n"] ∧
      (group_mixed.runGen Option.none true).length
        = (leader_mixed.streamRun Option.none).length + 1 ∧
      (∀ c ∈ leader_mixed.streamRun Option.none,
        (∀ s, c ≠ .str s) → chunk_text c = "")) ∧
    group_mixed.runGen Option.none true = ["a", "", "\n\n"] :=
  ⟨C10_nonstring_chunks group_mixed leader_mixed Option.none rfl rfl, by decide⟩
